import Mathlib

/-!
# Verification of the Kando host-process orchestrator (`src/main/app.ts`)

This file gives a shallow embedding of the `KandoApp` class: its mutable
fields become an explicit record `AppState`, each IPC handler and the
`showMenu` continuation become pure state-transition functions, and the
`setTimeout`/`clearTimeout` machinery is modelled by a set of pending timer
ids together with the stored `hideTimeout` handle.  Backend calls, messages
sent to the renderer window and console output become an explicit `Effect`
list.  All definitions are translated directly from the TypeScript source.
-/

/-- A rectangle as used by Electron's `Display.workArea` and
`BrowserWindow.setBounds`. -/
structure Rect where
  x : Int
  y : Int
  width : Int
  height : Int
  deriving Repr, DecidableEq

/-- The `WMInfo` snapshot produced by `backend.getWMInfo()`: absolute pointer
coordinates and, optionally, the class of the focused window. -/
structure WMInfo where
  pointerX : Int
  pointerY : Int
  windowClass : Option String
  deriving Repr, DecidableEq

/-- A menu node (`INode` in `src/common`): name, icon, icon theme and an
ordered list of children. -/
inductive INode where
  | mk (name : String) (icon : String) (iconTheme : String) (children : List INode)
  deriving Repr

def INode.name : INode → String
  | .mk n _ _ _ => n

def INode.icon : INode → String
  | .mk _ i _ _ => i

def INode.iconTheme : INode → String
  | .mk _ _ t _ => t

def INode.children : INode → List INode
  | .mk _ _ _ c => c

/-- One configured menu (`IMenuSettings.menus` element): the node tree, a
shortcut string and the `centered` flag. -/
structure MenuConfig where
  nodes : INode
  shortcut : String
  centered : Bool
  deriving Repr

/-! ## `createExampleMenu`

Translated from `KandoApp.createExampleMenu`: the constants
`CHILDREN_PER_LEVEL` and `TEST_ICONS`, the recursive `addChildren` helper
(written functionally: a node's children are built when
`level < CHILDREN_PER_LEVEL.length`, otherwise they stay `[]`), and the
returned menu record. -/

def CHILDREN_PER_LEVEL : List Nat := [8, 7, 7]

def TEST_ICONS : List String :=
  ["play_circle", "public", "arrow_circle_right", "terminal",
   "settings", "apps", "arrow_circle_left", "fullscreen"]

/-- The functional counterpart of `addChildren(parent, level)`: the list of
children given to a node named `parentName` at depth `level`. -/
def addChildren (parentName : String) (level : Nat) : List INode :=
  if h : level < CHILDREN_PER_LEVEL.length then
    (List.range (CHILDREN_PER_LEVEL.get ⟨level, h⟩)).map (fun i =>
      INode.mk (parentName ++ " " ++ toString i)
        (TEST_ICONS.getD (i % TEST_ICONS.length) "")
        "material-symbols-rounded"
        (addChildren (parentName ++ " " ++ toString i) (level + 1)))
  else []
  termination_by CHILDREN_PER_LEVEL.length - level

/-- `KandoApp.createExampleMenu`: the root node `Node` with icon `open_with`,
populated by `addChildren(root, 0)`, packaged with the example shortcut. -/
def createExampleMenu : MenuConfig :=
  { nodes := INode.mk "Node" "open_with" "material-symbols-rounded" (addChildren "Node" 0)
    shortcut := "Control+Space"
    centered := false }

/-! ## Orchestrator state

The mutable fields of `KandoApp` that the show/hide machine touches, plus an
explicit model of the Node.js timer queue: `pendingTimers` holds the ids of
hide timers that have been armed by `setTimeout` and neither fired nor been
cancelled; `hideTimeout` is the `this.hideTimeout` field (an `Option` since
the field starts `undefined` and the fire callback resets it to `null`).
`clearTimeout` removes an id from the pending set; overwriting the field
does not. -/

structure AppState where
  windowBounds : Rect
  windowVisible : Bool
  hideTimeout : Option Nat
  pendingTimers : List Nat
  nextTimerId : Nat
  deriving Repr, DecidableEq

/-- Observable effects of a handler: backend calls, renderer messages,
console output and the scheduled refocus. -/
inductive Effect where
  | backendMovePointer (dx dy : Int)
  | backendSimulateKeys (keys : String)
  | shellOpenExternal (uri : String)
  | sendShowMenu (nodes : INode) (posX posY : Int)
  | logMessage (msg : String)
  | logError (msg : String)
  | scheduleFocus
  deriving Repr

/-- The state of the app right after `initWindow`: the window covers the
primary display's work area expanded by one pixel, is hidden, and no hide
timer exists. -/
def initialState (primaryWorkArea : Rect) : AppState :=
  { windowBounds :=
      { x := primaryWorkArea.x
        y := primaryWorkArea.y
        width := primaryWorkArea.width + 1
        height := primaryWorkArea.height + 1 }
    windowVisible := false
    hideTimeout := none
    pendingTimers := []
    nextTimerId := 0 }

/-! ## IPC handlers (`initRendererIPC`) and the `showMenu` continuation -/

/-- The `hide-window` handler: `this.hideTimeout = setTimeout(...)`.  A fresh
timer is armed and the stored handle is overwritten; the previous timer, if
any, is NOT cancelled. -/
def onHideWindow (s : AppState) (_delay : Nat) : AppState :=
  { s with
    hideTimeout := some s.nextTimerId
    pendingTimers := s.pendingTimers ++ [s.nextTimerId]
    nextTimerId := s.nextTimerId + 1 }

/-- The callback armed by the `hide-window` handler, run when the timer with
id `id` fires: `this.window.hide(); this.hideTimeout = null;`.  A timer only
fires while it is pending; firing removes it from the pending set. -/
def onTimerFires (s : AppState) (id : Nat) : AppState :=
  if id ∈ s.pendingTimers then
    { s with
      windowVisible := false
      pendingTimers := s.pendingTimers.erase id
      hideTimeout := none }
  else s

/-- `if (this.hideTimeout) { clearTimeout(this.hideTimeout); }` — cancels the
timer referenced by the stored handle (a no-op on an already fired or
already cancelled handle); the field itself is left unchanged. -/
def clearStoredTimeout (s : AppState) : AppState :=
  match s.hideTimeout with
  | some id => { s with pendingTimers := s.pendingTimers.erase id }
  | none => s

/-- The body of `showMenu`'s `.then((info) => ...)` continuation, run when
`getWMInfo` resolves.  `disp` models `screen.getDisplayNearestPoint`,
returning the work area of the display containing a point; `menus` is the
current value of `menuSettings.get('menus')`. -/
def onShowMenuResolved (disp : Int → Int → Rect) (menus : List MenuConfig)
    (s : AppState) (info : WMInfo) : AppState × List Effect :=
  let s1 := clearStoredTimeout s
  let workarea := disp info.pointerX info.pointerY
  let s2 := { s1 with
    windowBounds :=
      { x := workarea.x
        y := workarea.y
        width := workarea.width + 1
        height := workarea.height + 1 } }
  let logEff :=
    match info.windowClass with
    | some wc => Effect.logMessage ("Currently focused window: " ++ wc)
    | none => Effect.logMessage "Currently no window is focused."
  match menus[0]? with
  | none =>
      -- `menus[0]` is `undefined`; `menu.nodes` throws and the rejection is
      -- caught by the trailing `.catch`, which only logs.
      (s2, [logEff, Effect.logError "Failed to show menu: TypeError"])
  | some menu =>
      ({ s2 with windowVisible := true },
       [logEff,
        Effect.sendShowMenu menu.nodes (info.pointerX - workarea.x)
          (info.pointerY - workarea.y),
        Effect.scheduleFocus])

/-- The body of `showMenu`'s `.catch((err) => ...)`: run when `getWMInfo`
rejects; it only logs the error. -/
def onShowMenuRejected (s : AppState) (err : String) : AppState × List Effect :=
  (s, [Effect.logError ("Failed to show menu: " ++ err)])

/-- The `simulate-keys` handler: hide the window immediately, then relay the
key sequence to the backend. -/
def onSimulateKeys (s : AppState) (keys : String) : AppState × List Effect :=
  ({ s with windowVisible := false }, [Effect.backendSimulateKeys keys])

/-- The `move-pointer` handler:
`this.backend.movePointer(Math.floor(dist.x), Math.floor(dist.y))`.
The fractional deltas are modelled as rationals and `Math.floor` as `⌊·⌋`. -/
def onMovePointer (s : AppState) (distX distY : ℚ) : AppState × List Effect :=
  (s, [Effect.backendMovePointer ⌊distX⌋ ⌊distY⌋])

/-- The `open-uri` handler: hide the window immediately, then open the URI
via the OS handler. -/
def onOpenUri (s : AppState) (uri : String) : AppState × List Effect :=
  ({ s with windowVisible := false }, [Effect.shellOpenExternal uri])

/-! ## Event traces

The orchestrator is single-threaded: each renderer message, each timer
callback and each settled `getWMInfo` promise runs to completion as one
atomic step.  An `Event` is one such step. -/

inductive Event where
  | hideWindow (delay : Nat)
  | showResolved (info : WMInfo)
  | showRejected (err : String)
  | timerFires (id : Nat)
  | simulateKeys (keys : String)
  | movePointer (x y : ℚ)
  | openUri (uri : String)
  deriving Repr, DecidableEq

def step (disp : Int → Int → Rect) (menus : List MenuConfig)
    (s : AppState) : Event → AppState
  | .hideWindow d => onHideWindow s d
  | .showResolved info => (onShowMenuResolved disp menus s info).1
  | .showRejected err => (onShowMenuRejected s err).1
  | .timerFires id => onTimerFires s id
  | .simulateKeys keys => (onSimulateKeys s keys).1
  | .movePointer x y => (onMovePointer s x y).1
  | .openUri uri => (onOpenUri s uri).1

def run (disp : Int → Int → Rect) (menus : List MenuConfig)
    (s : AppState) (events : List Event) : AppState :=
  events.foldl (step disp menus) s

/-! ## `KandoApp.init`

The startup sequence of `init`, in source order.  The backend field is
`getBackend()`'s result, possibly `null` (modelled as `Option`); the body of
the backend is irrelevant to `init`'s control flow.  The function returns
the menu list after the first-run seeding together with the ordered list of
startup actions performed, or the thrown error. -/

inductive StartupAction where
  | seedMenus
  | subscribeMenuTheme
  | subscribeEditorTheme
  | backendInit
  | createWindow
  | initIPC
  | setupTray
  | bindShortcut
  deriving Repr, DecidableEq

def KandoApp.init (backend : Option Unit) (menus : List MenuConfig) :
    Except String (List MenuConfig × List StartupAction) :=
  match backend with
  | none => Except.error "No backend found."
  | some _ =>
    let (menus', seedActions) :=
      if menus.length = 0 then ([createExampleMenu], [StartupAction.seedMenus])
      else (menus, [])
    Except.ok (menus',
      seedActions ++
        [StartupAction.subscribeMenuTheme, StartupAction.subscribeEditorTheme,
         StartupAction.backendInit, StartupAction.createWindow, StartupAction.initIPC,
         StartupAction.setupTray, StartupAction.bindShortcut])

/-- Truncation toward zero on rationals, the semantics the spec ascribes to
the `move-pointer` delta conversion.  (The code uses `Math.floor`, which
agrees with this only on non-negative inputs.) -/
def truncTowardZero (q : ℚ) : Int := if q < 0 then ⌈q⌉ else ⌊q⌋

/-! ## Helper lemmas -/

/-- The show continuation never arms a timer: its pending set is that of the
state after `clearTimeout`. -/
theorem onShowMenuResolved_pendingTimers (disp : Int → Int → Rect)
    (menus : List MenuConfig) (s : AppState) (info : WMInfo) :
    (onShowMenuResolved disp menus s info).1.pendingTimers =
      (clearStoredTimeout s).pendingTimers := by
  unfold onShowMenuResolved
  rcases menus[0]? with _ | m <;> simp

/-! ## Claims -/

/-- C1: REFUTED as stated.  The claim says the `move-pointer` deltas are
truncated toward zero, so `(2.9, -2.9)` would yield `(2, -2)`; the handler
actually applies `Math.floor` to each delta, so the backend receives
`(2, -3)`. -/
theorem C1_counterexample :
    (onMovePointer (initialState ⟨0, 0, 1920, 1080⟩) (29/10) (-(29/10))).2 =
      [Effect.backendMovePointer 2 (-3)] ∧ ((-3 : Int) ≠ -2) := by
  constructor
  · simp only [onMovePointer]
    norm_num
  · decide

/-- C1 (amended): the `move-pointer` handler invokes the backend's
`movePointer` with the deltas floored (rounded toward negative infinity)
for every pair of deltas, negative ones included; only for non-negative
deltas does this coincide with truncation toward zero, while a negative
fractional delta such as `-2.9` is floored to `-3`, not `-2`. -/
theorem C1_movePointer_floors_deltas (s : AppState) (x y : ℚ) :
    onMovePointer s x y = (s, [Effect.backendMovePointer ⌊x⌋ ⌊y⌋]) ∧
    (0 ≤ x → 0 ≤ y →
      onMovePointer s x y =
        (s, [Effect.backendMovePointer (truncTowardZero x) (truncTowardZero y)])) := by
  refine ⟨rfl, fun hx hy => ?_⟩
  rw [truncTowardZero, truncTowardZero, if_neg (not_lt.mpr hx), if_neg (not_lt.mpr hy)]
  rfl

/-- Witness for the amended C1 theorem at the deltas `(2.9, 0.5)`,
discharging the non-negativity premises of its truncation clause. -/
theorem C1_movePointer_floors_deltas_witness :
    onMovePointer (initialState ⟨0, 0, 1920, 1080⟩) (29/10) (1/2) =
      (initialState ⟨0, 0, 1920, 1080⟩,
       [Effect.backendMovePointer (truncTowardZero (29/10)) (truncTowardZero (1/2))]) :=
  (C1_movePointer_floors_deltas (initialState ⟨0, 0, 1920, 1080⟩) (29/10) (1/2)).2
    (by norm_num) (by norm_num)

/-- C3: if `getWMInfo` rejects, the `.catch` handler only logs; the state —
bounds, visibility, the stored timer handle and the set of pending timers —
is exactly what it was, and no `show-menu` message is among the effects. -/
theorem C3_rejection_aborts_transition (s : AppState) (err : String) :
    (onShowMenuRejected s err).1 = s ∧
    (onShowMenuRejected s err).2 = [Effect.logError ("Failed to show menu: " ++ err)] ∧
    (onShowMenuRejected s err).1.windowBounds = s.windowBounds ∧
    (onShowMenuRejected s err).1.windowVisible = s.windowVisible ∧
    (onShowMenuRejected s err).1.hideTimeout = s.hideTimeout ∧
    (onShowMenuRejected s err).1.pendingTimers = s.pendingTimers :=
  ⟨rfl, rfl, rfl, rfl, rfl, rfl⟩

/-- C5: on a successful show request the window's bounds are set to the work
area of the display containing the pointer, expanded by one pixel in width
and height. -/
theorem C5_bounds_workarea_plus_one (disp : Int → Int → Rect) (m : MenuConfig)
    (rest : List MenuConfig) (s : AppState) (info : WMInfo) :
    (onShowMenuResolved disp (m :: rest) s info).1.windowBounds =
      { x := (disp info.pointerX info.pointerY).x
        y := (disp info.pointerX info.pointerY).y
        width := (disp info.pointerX info.pointerY).width + 1
        height := (disp info.pointerX info.pointerY).height + 1 } := by
  unfold onShowMenuResolved
  simp

/-- C6: the `show-menu` message carries the first configured menu's node
tree and the pointer position relative to the work-area origin; with
pointer `(100, 50)` and work area `(0, 0, 1920, 1080)` the message carries
position `(100, 50)` and the bounds become `(0, 0, 1921, 1081)`. -/
theorem C6_show_message_payload (disp : Int → Int → Rect) (m : MenuConfig)
    (rest : List MenuConfig) (s : AppState) (info : WMInfo) :
    Effect.sendShowMenu m.nodes
        (info.pointerX - (disp info.pointerX info.pointerY).x)
        (info.pointerY - (disp info.pointerX info.pointerY).y)
      ∈ (onShowMenuResolved disp (m :: rest) s info).2 ∧
    (onShowMenuResolved (fun _ _ => ⟨0, 0, 1920, 1080⟩) (m :: rest) s ⟨100, 50, none⟩).2 =
      [Effect.logMessage "Currently no window is focused.",
       Effect.sendShowMenu m.nodes 100 50,
       Effect.scheduleFocus] ∧
    (onShowMenuResolved (fun _ _ => ⟨0, 0, 1920, 1080⟩) (m :: rest) s
        ⟨100, 50, none⟩).1.windowBounds = ⟨0, 0, 1921, 1081⟩ := by
  refine ⟨?_, ?_, ?_⟩
  · unfold onShowMenuResolved
    rcases info.windowClass with _ | wc <;> simp
  · unfold onShowMenuResolved
    norm_num
  · unfold onShowMenuResolved
    norm_num

/-- C8: `simulate-keys` and `open-uri` hide the window immediately — a
direct hide that neither arms a timer nor touches the stored handle — while
relaying to the backend or OS handler; `move-pointer` leaves the whole
state, in particular the window's visibility, unchanged. -/
theorem C8_relay_visibility (s : AppState) (keys uri : String) (x y : ℚ) :
    (onSimulateKeys s keys).1.windowVisible = false ∧
    (onSimulateKeys s keys).1.pendingTimers = s.pendingTimers ∧
    (onSimulateKeys s keys).1.hideTimeout = s.hideTimeout ∧
    (onSimulateKeys s keys).2 = [Effect.backendSimulateKeys keys] ∧
    (onOpenUri s uri).1.windowVisible = false ∧
    (onOpenUri s uri).1.pendingTimers = s.pendingTimers ∧
    (onOpenUri s uri).1.hideTimeout = s.hideTimeout ∧
    (onOpenUri s uri).2 = [Effect.shellOpenExternal uri] ∧
    (onMovePointer s x y).1 = s ∧
    (onMovePointer s x y).1.windowVisible = s.windowVisible :=
  ⟨rfl, rfl, rfl, rfl, rfl, rfl, rfl, rfl, rfl, rfl⟩

/-- C9: when `getBackend()` returned `null`, `init` throws `No backend
found.` before any startup step: the error result carries no performed
actions and no seeded menus. -/
theorem C9_null_backend_is_fatal (menus : List MenuConfig) :
    KandoApp.init none menus = Except.error "No backend found." := rfl

/-- C2: REFUTED as stated.  The `hide-window` handler overwrites
`this.hideTimeout` with a fresh `setTimeout` handle without calling
`clearTimeout` first, so two consecutive `hide-window` messages leave two
timers pending (ids 0 and 1). -/
theorem C2_counterexample :
    (run (fun _ _ => ⟨0, 0, 1920, 1080⟩) [createExampleMenu]
        (initialState ⟨0, 0, 1920, 1080⟩)
        [Event.hideWindow 100, Event.hideWindow 100]).pendingTimers = [0, 1] ∧
    1 < (run (fun _ _ => ⟨0, 0, 1920, 1080⟩) [createExampleMenu]
        (initialState ⟨0, 0, 1920, 1080⟩)
        [Event.hideWindow 100, Event.hideWindow 100]).pendingTimers.length := by
  decide

/-- C2 (amended): arming a new hide timer does NOT cancel a previously
armed one — only the show continuation cancels (and only the timer the
stored handle references).  The invariant "at most one hide timer pending"
is therefore preserved by every event only under the proviso that each
`hide-window` message arrives when no timer is pending. -/
theorem C2_single_timer_under_protocol (disp : Int → Int → Rect)
    (menus : List MenuConfig) (s : AppState) (e : Event)
    (hinv : s.pendingTimers.length ≤ 1)
    (hguard : ∀ d, e = Event.hideWindow d → s.pendingTimers = []) :
    (step disp menus s e).pendingTimers.length ≤ 1 := by
  cases e with
  | hideWindow d =>
      have hp := hguard d rfl
      simp [step, onHideWindow, hp]
  | showResolved info =>
      have h := onShowMenuResolved_pendingTimers disp menus s info
      simp only [step, h]
      unfold clearStoredTimeout
      cases hh : s.hideTimeout with
      | none => exact hinv
      | some id =>
          exact le_trans (List.Sublist.length_le (List.erase_sublist _ _)) hinv
  | showRejected err => exact hinv
  | timerFires id =>
      simp only [step]
      unfold onTimerFires
      split
      · exact le_trans (List.Sublist.length_le (List.erase_sublist _ _)) hinv
      · exact hinv
  | simulateKeys keys => exact hinv
  | movePointer x y => exact hinv
  | openUri uri => exact hinv

/-- Witness for the amended C2 theorem: one `hide-window` event from the
initial state leaves at most one timer pending. -/
theorem C2_single_timer_under_protocol_witness :
    (step (fun _ _ => ⟨0, 0, 1920, 1080⟩) [createExampleMenu]
        (initialState ⟨0, 0, 1920, 1080⟩) (Event.hideWindow 200)).pendingTimers.length ≤ 1 :=
  C2_single_timer_under_protocol (fun _ _ => ⟨0, 0, 1920, 1080⟩) [createExampleMenu]
    (initialState ⟨0, 0, 1920, 1080⟩) (Event.hideWindow 200)
    (by decide) (fun _ _ => by decide)

/-- C4: REFUTED as stated.  After `hide-window, hide-window, timer-1-fires`
exactly one hide timer (id 0) is armed and the stored handle is `null`, so
the show continuation's `if (this.hideTimeout)` cancels nothing: timer 0 is
still pending after the show transition completes. -/
theorem C4_counterexample :
    (run (fun _ _ => ⟨0, 0, 1920, 1080⟩) [createExampleMenu]
        (initialState ⟨0, 0, 1920, 1080⟩)
        [Event.hideWindow 1000, Event.hideWindow 10,
         Event.timerFires 1]).pendingTimers = [0] ∧
    (run (fun _ _ => ⟨0, 0, 1920, 1080⟩) [createExampleMenu]
        (initialState ⟨0, 0, 1920, 1080⟩)
        [Event.hideWindow 1000, Event.hideWindow 10,
         Event.timerFires 1]).hideTimeout = none ∧
    0 ∈ (run (fun _ _ => ⟨0, 0, 1920, 1080⟩) [createExampleMenu]
        (initialState ⟨0, 0, 1920, 1080⟩)
        [Event.hideWindow 1000, Event.hideWindow 10, Event.timerFires 1,
         Event.showResolved ⟨100, 50, none⟩]).pendingTimers := by
  decide

/-- C4 (amended): the show continuation cancels exactly the timer the
stored handle references, as its first step.  Hence whenever at most one
timer is pending and the handle tracks it (as in every protocol-respecting
trace), no hide timer is pending after the show transition. -/
theorem C4_show_cancels_tracked_timer (disp : Int → Int → Rect)
    (menus : List MenuConfig) (s : AppState) (info : WMInfo)
    (hone : s.pendingTimers.length ≤ 1)
    (htrack : ∀ id ∈ s.pendingTimers, s.hideTimeout = some id) :
    (onShowMenuResolved disp menus s info).1.pendingTimers = [] := by
  rw [onShowMenuResolved_pendingTimers]
  unfold clearStoredTimeout
  cases hh : s.hideTimeout with
  | none =>
      cases hp : s.pendingTimers with
      | nil => rfl
      | cons a t =>
          have ha := htrack a (by rw [hp]; exact List.mem_cons_self a t)
          rw [hh] at ha
          cases ha
  | some id =>
      cases hp : s.pendingTimers with
      | nil => simp [hp]
      | cons a t =>
          have ha := htrack a (by rw [hp]; exact List.mem_cons_self a t)
          rw [hh] at ha
          injection ha with hid
          have ht : t = [] := by
            rw [hp, List.length_cons] at hone
            have : t.length = 0 := by omega
            exact List.length_eq_zero.mp this
          simp [hp, hid, ht]

/-- Witness for the amended C4 theorem: a state with one pending timer
(id 5) tracked by the handle has no pending timer after the show
continuation runs. -/
theorem C4_show_cancels_tracked_timer_witness :
    (onShowMenuResolved (fun _ _ => ⟨0, 0, 1920, 1080⟩) [createExampleMenu]
        { initialState ⟨0, 0, 1920, 1080⟩ with
            pendingTimers := [5], hideTimeout := some 5 }
        ⟨100, 50, none⟩).1.pendingTimers = [] :=
  C4_show_cancels_tracked_timer (fun _ _ => ⟨0, 0, 1920, 1080⟩) [createExampleMenu]
    { initialState ⟨0, 0, 1920, 1080⟩ with pendingTimers := [5], hideTimeout := some 5 }
    ⟨100, 50, none⟩ (by decide) (by decide)

/-- C7: with zero menus stored, `init` seeds the store with exactly the one
generated example menu as its very first action, before the theme
subscriptions, the backend initialization, the window creation, the IPC
setup, the tray and the shortcut binding; the example menu's root node has
eight children. -/
theorem C7_first_run_seeds_example_menu :
    KandoApp.init (some ()) [] =
      Except.ok ([createExampleMenu],
        [StartupAction.seedMenus, StartupAction.subscribeMenuTheme,
         StartupAction.subscribeEditorTheme, StartupAction.backendInit,
         StartupAction.createWindow, StartupAction.initIPC,
         StartupAction.setupTray, StartupAction.bindShortcut]) ∧
    createExampleMenu.nodes.children.length = 8 := by
  constructor
  · rfl
  · rw [createExampleMenu]
    simp only [INode.children]
    rw [addChildren]
    simp [CHILDREN_PER_LEVEL]

/-- C10: `simulate-keys` and `open-uri` leave the hide-timer state
untouched: a timer pending before the message is still pending afterward
(and the stored handle is unchanged); when that timer later fires it calls
`hide` on the already-hidden window and clears the handle. -/
theorem C10_relay_preserves_hide_timer (s : AppState) (keys uri : String)
    (id : Nat) (h : id ∈ s.pendingTimers) :
    id ∈ (onSimulateKeys s keys).1.pendingTimers ∧
    (onSimulateKeys s keys).1.hideTimeout = s.hideTimeout ∧
    id ∈ (onOpenUri s uri).1.pendingTimers ∧
    (onOpenUri s uri).1.hideTimeout = s.hideTimeout ∧
    (onSimulateKeys s keys).1.windowVisible = false ∧
    (onTimerFires (onSimulateKeys s keys).1 id).windowVisible = false ∧
    (onTimerFires (onSimulateKeys s keys).1 id).hideTimeout = none ∧
    (onTimerFires (onSimulateKeys s keys).1 id).pendingTimers = s.pendingTimers.erase id := by
  refine ⟨h, rfl, h, rfl, rfl, ?_, ?_, ?_⟩ <;>
    simp [onTimerFires, onSimulateKeys, h]

/-- Witness for C10 at a state with pending timer 3 and keys `Ctrl+V`. -/
theorem C10_relay_preserves_hide_timer_witness :
    (onTimerFires (onSimulateKeys
        { initialState ⟨0, 0, 1920, 1080⟩ with
            pendingTimers := [3], hideTimeout := some 3 } "Ctrl+V").1 3).hideTimeout = none :=
  (C10_relay_preserves_hide_timer
    { initialState ⟨0, 0, 1920, 1080⟩ with pendingTimers := [3], hideTimeout := some 3 }
    "Ctrl+V" "https://example.com" 3 (by decide)).2.2.2.2.2.2.1
